import Mathlib

/-!
Verification of the multi-tenant content resolution and rendering pipeline
of the content-automation frontend.  The definitions below are shallow
embeddings of the TypeScript functions of the frontend: fetch outcomes are
explicit values, JSON response shapes are a tagged union, and every
component function is translated branch by branch from its source.
-/

namespace CAP

/-! ## Data model (src/frontend/src/types) -/

/-- One `sources` entry of an article: either a plain URL string or a
structured `{url, title, source}` record (`title` may be missing or empty
in historical data, hence `Option`). -/
inductive SourceEntry where
  | str (s : String)
  | obj (url : String) (title : Option String) (source : String)
deriving DecidableEq, Repr

/-- `Site` from `types/admin.ts` (branding fields omitted where unused are kept). -/
structure Site where
  id : Nat
  slug : String
  name : String
  description : String
  primary_color : String
  secondary_color : String
deriving DecidableEq, Repr

/-- `Article` from `types/index.ts`. -/
structure Article where
  id : Nat
  title : String
  slug : String
  body : String
  site : String
  sources : List SourceEntry
  status : String
  created_at : String
deriving DecidableEq, Repr

/-! ## Wire shapes and fetch outcomes -/

/-- JSON body of a list endpoint: a bare array, the paginated envelope
`{results: [...], count: N}`, or any other shape. -/
inductive ApiResponse (α : Type) where
  | arr (xs : List α)
  | envelope (results : List α) (count : Nat)
  | other
deriving DecidableEq, Repr

/-- Outcome of `await fetch(...)` followed by `await res.json()`:
either the promise chain resolves (with the HTTP `res.ok` flag and the
parsed body) or it rejects (network failure or unparsable body). -/
inductive Fetched (α : Type) where
  | success (ok : Bool) (body : α)
  | transportError
deriving DecidableEq, Repr

/-- A JavaScript computation that either produces a value or throws. -/
inductive JsOutcome (α : Type) where
  | value (a : α)
  | thrown
deriving DecidableEq, Repr

/-! ## C10: admin status badge (`getStatusBadge`, ArticleTable) -/

/-- One own record of the `statusConfig` object literal (`{color, label}`). -/
structure BadgeConfig where
  color : String
  label : String
deriving DecidableEq, Repr

/-- Property names an object literal inherits from `Object.prototype`: a
plain JS member access that finds no own property walks the prototype
chain and yields these members (functions, and the `__proto__` accessor),
all of which are truthy values. -/
def objectPrototypeKeys : List String :=
  ["constructor", "hasOwnProperty", "isPrototypeOf", "propertyIsEnumerable",
   "toLocaleString", "toString", "valueOf", "__proto__", "__defineGetter__",
   "__defineSetter__", "__lookupGetter__", "__lookupSetter__"]

/-- Value of the JS member access
`statusConfig[status as keyof typeof statusConfig]` (the cast is erased at
runtime): one of the three own records; otherwise, for a name inherited
from `Object.prototype`, the truthy inherited member (which is not a badge
record and has no `color`/`label`); otherwise `undefined`. -/
inductive ConfigValue where
  | badge (b : BadgeConfig)
  | protoMember
  | undefined
deriving DecidableEq, Repr

def statusConfigLookup (status : String) : ConfigValue :=
  if status = "pending" then .badge ⟨"bg-yellow-100 text-yellow-800", "Pending"⟩
  else if status = "approved" then .badge ⟨"bg-green-100 text-green-800", "Approved"⟩
  else if status = "rejected" then .badge ⟨"bg-red-100 text-red-800", "Rejected"⟩
  else if status ∈ objectPrototypeKeys then .protoMember
  else .undefined

/-- The span `getStatusBadge` renders: its className and its text. -/
structure BadgeSpan where
  className : String
  label : String
deriving DecidableEq, Repr

/-- `getStatusBadge` from the admin `ArticleTable`:
`const config = statusConfig[status] || statusConfig.pending`, then a span
with className `` `inline-flex ... font-medium ${config.color}` `` and text
`{config.label}`.  The `||` fallback fires only when the lookup is falsy
(`undefined`); a truthy inherited `Object.prototype` member is kept, and
reading `.color`/`.label` off it gives `undefined`, which the template
literal interpolates as the string "undefined" and React renders as no
text. -/
def getStatusBadge (status : String) : BadgeSpan :=
  match statusConfigLookup status with
  | .badge b =>
      ⟨"inline-flex items-center px-2.5 py-0.5 rounded-full text-xs font-medium " ++ b.color,
       b.label⟩
  | .protoMember =>
      ⟨"inline-flex items-center px-2.5 py-0.5 rounded-full text-xs font-medium undefined", ""⟩
  | .undefined =>
      ⟨"inline-flex items-center px-2.5 py-0.5 rounded-full text-xs font-medium bg-yellow-100 text-yellow-800",
       "Pending"⟩

/-- C10 counterexample: at the status string "toString" — outside
{pending, approved, rejected} — the lookup finds the truthy inherited
`Object.prototype.toString`, the fallback does not fire, and the rendered
span has the literal class "undefined" and an empty label, not the Pending
badge. -/
theorem c10_counterexample :
    getStatusBadge "toString"
      = ⟨"inline-flex items-center px-2.5 py-0.5 rounded-full text-xs font-medium undefined",
         ""⟩ ∧
    getStatusBadge "toString"
      ≠ ⟨"inline-flex items-center px-2.5 py-0.5 rounded-full text-xs font-medium bg-yellow-100 text-yellow-800",
         "Pending"⟩ := by
  exact ⟨rfl, by decide⟩

/-- C10 amended: each of the three known statuses renders its own badge; a
status string outside the three renders the Pending badge provided it is
not a property name inherited from `Object.prototype`; for an inherited
name the `||` fallback does not fire and the span has the literal class
"undefined" and an empty label. -/
theorem c10_status_badge (status inh : String)
    (h1 : status ≠ "pending") (h2 : status ≠ "approved") (h3 : status ≠ "rejected")
    (h4 : status ∉ objectPrototypeKeys) (g1 : inh ∈ objectPrototypeKeys) :
    getStatusBadge status
      = ⟨"inline-flex items-center px-2.5 py-0.5 rounded-full text-xs font-medium bg-yellow-100 text-yellow-800",
         "Pending"⟩ ∧
    getStatusBadge "pending"
      = ⟨"inline-flex items-center px-2.5 py-0.5 rounded-full text-xs font-medium bg-yellow-100 text-yellow-800",
         "Pending"⟩ ∧
    getStatusBadge "approved"
      = ⟨"inline-flex items-center px-2.5 py-0.5 rounded-full text-xs font-medium bg-green-100 text-green-800",
         "Approved"⟩ ∧
    getStatusBadge "rejected"
      = ⟨"inline-flex items-center px-2.5 py-0.5 rounded-full text-xs font-medium bg-red-100 text-red-800",
         "Rejected"⟩ ∧
    getStatusBadge inh
      = ⟨"inline-flex items-center px-2.5 py-0.5 rounded-full text-xs font-medium undefined",
         ""⟩ := by
  refine ⟨?_, by decide, by decide, by decide, ?_⟩
  · simp [getStatusBadge, statusConfigLookup, h1, h2, h3, h4]
  · fin_cases g1 <;> decide

/-- Witness for C10 at the concrete inputs "draft" and "toString". -/
theorem c10_status_badge_witness :
    getStatusBadge "draft"
      = ⟨"inline-flex items-center px-2.5 py-0.5 rounded-full text-xs font-medium bg-yellow-100 text-yellow-800",
         "Pending"⟩ :=
  (c10_status_badge "draft" "toString" (by decide) (by decide) (by decide)
    (by decide) (by decide)).1

/-! ## C4: source links on the article detail page -/

/-- The `(href, label)` pair the detail page computes per `sources` entry:
`const url = typeof src === 'string' ? src : src.url;`
`const title = typeof src === 'string' ? src : (src.title || src.source);`
(JS `||` falls through on a missing and on an empty `title`). -/
def renderSourceLink : SourceEntry → String × String
  | .str s => (s, s)
  | .obj url title source =>
      (url, match title with
            | some t => if t = "" then source else t
            | none => source)

/-- C4 counterexample: for the structured entry with `title` present but
empty, the code labels the link with `source`, while the claim as stated
(label is `title`, fallback only when `title` is absent) demands the empty
label. -/
theorem c4_counterexample :
    renderSourceLink (.obj "https://x" (some "") "S") = ("https://x", "S") ∧
    ("S" : String) ≠ "" := by
  exact ⟨rfl, by decide⟩

/-- C4 amended: a bare string entry `s` yields href `s` and label `s`; a
structured entry yields href `url` and label `title`, falling back to
`source` as the label when `title` is absent or empty. -/
theorem c4_source_entry_rendering (s url source t : String) (ht : t ≠ "") :
    renderSourceLink (.str s) = (s, s) ∧
    renderSourceLink (.obj url (some t) source) = (url, t) ∧
    renderSourceLink (.obj url none source) = (url, source) ∧
    renderSourceLink (.obj url (some "") source) = (url, source) := by
  refine ⟨rfl, ?_, rfl, rfl⟩
  simp [renderSourceLink, ht]

/-- Witness for C4 at concrete inputs. -/
theorem c4_source_entry_rendering_witness :
    renderSourceLink (.obj "https://x" (some "T") "S") = ("https://x", "T") :=
  (c4_source_entry_rendering "https://x" "https://x" "S" "T" (by decide)).2.1

/-! ## C6: `login` in the auth provider (lib/auth) -/

/-- The `{isAuthenticated, isLoading}` state of the auth context. -/
structure AuthState where
  isAuthenticated : Bool
  isLoading : Bool
deriving DecidableEq, Repr

/-- Parsed JSON body of the login response: truthiness of `data.success`
and the optional `data.error` string. -/
structure LoginResponse where
  success : Bool
  error : Option String
deriving DecidableEq, Repr

/-- `login` from the auth provider: returns the boolean result and the
state after the call.  Mirrors
`if (response.ok && data.success) ... else if (data.error === 'Already authenticated') ...
else return false`, with the surrounding `catch` returning false. -/
def login (st : AuthState) (r : Fetched LoginResponse) : Bool × AuthState :=
  match r with
  | .transportError => (false, st)
  | .success ok d =>
    if ok ∧ d.success then (true, { st with isAuthenticated := true })
    else if d.error = some "Already authenticated" then (true, { st with isAuthenticated := true })
    else (false, st)

/-- C6 counterexample: a response whose body carries `success: true` but
whose HTTP status is not ok (and no "Already authenticated" error) makes
`login` return false, although the claim as stated ("returns true exactly
when the server responds with success:true ...") demands true. -/
theorem c6_counterexample :
    login ⟨false, false⟩ (.success false ⟨true, none⟩) = (false, ⟨false, false⟩) ∧
    (LoginResponse.mk true none).success = true := by
  exact ⟨by decide, rfl⟩

/-- C6 amended: `login` returns true (and sets `isAuthenticated`) exactly
when the response is HTTP-ok with `success: true`, or when the error value
is "Already authenticated"; every other response and every transport error
returns false and leaves the state unchanged. -/
theorem c6_login_behaviour (st : AuthState) (ok succ : Bool) (err : Option String) :
    login st .transportError = (false, st) ∧
    ((login st (.success ok ⟨succ, err⟩)).1 = true ↔
      (ok = true ∧ succ = true) ∨ err = some "Already authenticated") ∧
    ((login st (.success ok ⟨succ, err⟩)).1 = true →
      (login st (.success ok ⟨succ, err⟩)).2 = { st with isAuthenticated := true }) ∧
    ((login st (.success ok ⟨succ, err⟩)).1 = false →
      login st (.success ok ⟨succ, err⟩) = (false, st)) := by
  refine ⟨rfl, ?_, ?_, ?_⟩ <;>
    by_cases hok : ok = true ∧ succ = true <;>
      by_cases herr : err = some "Already authenticated" <;>
        simp [login, hok, herr]

/-- Witness for C6: a successful login response at a concrete state. -/
theorem c6_login_behaviour_witness :
    (login ⟨false, false⟩ (.success true ⟨true, none⟩)).1 = true :=
  ((c6_login_behaviour ⟨false, false⟩ true true none).2.1).mpr (Or.inl ⟨rfl, rfl⟩)

/-! ## C3: CSRF discipline of mutating requests -/

/-- Whitespace as recognised by the JavaScript string functions used here
(`trim`, `\s`): space, tab, and the line/page separators. -/
def jsWhitespace (c : Char) : Bool :=
  c = ' ' || c = '\t' || c = '\n' || c = '\r' || c.toNat = 11 || c.toNat = 12

/-- JavaScript `String.prototype.trim` on a character list. -/
def trimChars (l : List Char) : List Char :=
  ((l.dropWhile jsWhitespace).reverse.dropWhile jsWhitespace).reverse

/-- `getSites` (site layout and tenant directory): on an ok response, take
`response.results` when it is an array, else the response itself when it is
an array, else `[]`; `[]` on a non-ok status and on any thrown error. -/
def getSites (r : Fetched (ApiResponse Site)) : List Site :=
  match r with
  | .transportError => []
  | .success ok body =>
    if ok then
      match body with
      | .envelope results _ => results
      | .arr xs => xs
      | .other => []
    else []

/-- `getArticles` of the public listing page: same normalization and
empty-on-error contract as `getSites`. -/
def getArticlesList (r : Fetched (ApiResponse Article)) : List Article :=
  match r with
  | .transportError => []
  | .success ok body =>
    if ok then
      match body with
      | .envelope results _ => results
      | .arr xs => xs
      | .other => []
    else []

/-- `getSiteConfig` from `lib/getSiteConfig.ts`: no `res.ok` check and no
`try`/`catch`; it calls `sites.find(...)` directly on the parsed JSON, so a
transport failure propagates and a non-array body (the envelope included)
throws `sites.find is not a function`. -/
def getSiteConfig (slug : String) (r : Fetched (ApiResponse Site)) : JsOutcome (Option Site) :=
  match r with
  | .transportError => .thrown
  | .success _ body =>
    match body with
    | .arr sites => .value (sites.find? (fun s => s.slug = slug))
    | .envelope _ _ => .thrown
    | .other => .thrown

/-- A concrete site used by counterexamples. -/
def demoSite : Site :=
  ⟨1, "ai-skills", "AI Skills", "Helping people stay relevant in the AI age.", "#3574a9", "#c3b4af"⟩

/-- C1 counterexample: the site resolver does not normalize the envelope:
on `{results: [demoSite], count: 1}` it throws, while on the bare array
with the same elements it resolves the slug, so the two shapes do not
yield equal outcomes. -/
theorem c1_counterexample :
    getSiteConfig "ai-skills" (.success true (.envelope [demoSite] 1)) = .thrown ∧
    getSiteConfig "ai-skills" (.success true (.arr [demoSite])) = .value (some demoSite) ∧
    (JsOutcome.thrown : JsOutcome (Option Site)) ≠ .value (some demoSite) := by
  refine ⟨rfl, ?_, by decide⟩
  simp [getSiteConfig, demoSite, List.find?]

/-- C1 amended: the sites-list and articles-list fetchers normalize the
envelope and the bare array to the same sequence `xs`; the site resolver
accepts only the bare array (resolving by exact slug match) and throws on
the envelope. -/
theorem c1_envelope_normalization (ss : List Site) (as : List Article)
    (n m : Nat) (slug : String) :
    getSites (.success true (.envelope ss n)) = ss ∧
    getSites (.success true (.arr ss)) = ss ∧
    getArticlesList (.success true (.envelope as m)) = as ∧
    getArticlesList (.success true (.arr as)) = as ∧
    getSiteConfig slug (.success true (.arr ss)) = .value (ss.find? (fun s => s.slug = slug)) ∧
    getSiteConfig slug (.success true (.envelope ss n)) = .thrown :=
  ⟨rfl, rfl, rfl, rfl, rfl, rfl⟩

/-- C5 counterexample: a transport error inside `getSiteConfig` propagates
as a thrown failure to the caller instead of degrading to an absent/empty
outcome. -/
theorem c5_counterexample :
    getSiteConfig "ai-skills" .transportError = .thrown ∧
    (∀ o : Option Site, (JsOutcome.thrown : JsOutcome (Option Site)) ≠ .value o) := by
  exact ⟨rfl, fun o h => JsOutcome.noConfusion h⟩

/-- The tenant-scoped pages short-circuit to `notFound()` when the resolved
config is absent (`if (!siteConfig) notFound()`). -/
inductive SitePageView where
  | notFoundView
  | renderedPage (config : Site)
deriving DecidableEq, Repr

/-- Page-level handling of the resolver result in the site layout/pages. -/
def sitePageOf (config : Option Site) : SitePageView :=
  match config with
  | none => .notFoundView
  | some c => .renderedPage c

/-- C5 amended: the site-list fetch never propagates a failure (transport
error, non-ok status and unexpected shape all yield the empty sequence),
and an unmatched slug in a bare-array response yields the absent outcome
that triggers the page-level not-found; but the slug-to-site resolver
propagates transport errors and non-array shapes as thrown failures. -/
theorem c5_site_fetch_failure_policy (slug : String) (ss : List Site) (ok : Bool)
    (body : ApiResponse Site) (n : Nat) (hnm : ∀ s ∈ ss, s.slug ≠ slug) :
    getSites .transportError = [] ∧
    getSites (.success true .other) = [] ∧
    getSites (.success false body) = [] ∧
    getSiteConfig slug (.success ok (.arr ss)) = .value none ∧
    sitePageOf none = .notFoundView ∧
    getSiteConfig slug .transportError = .thrown ∧
    getSiteConfig slug (.success ok (.envelope ss n)) = .thrown := by
  refine ⟨rfl, rfl, rfl, ?_, rfl, rfl, rfl⟩
  have : ss.find? (fun s => s.slug = slug) = none := by
    rw [List.find?_eq_none]
    intro s hs
    simpa using hnm s hs
  simp [getSiteConfig, this]

/-- Witness for C5 at a concrete unmatched slug. -/
theorem c5_site_fetch_failure_policy_witness :
    getSiteConfig "green-living" (.success true (.arr [demoSite])) = .value none :=
  (c5_site_fetch_failure_policy "green-living" [demoSite] true .other 0
    (by intro s hs; simp at hs; subst hs; decide)).2.2.2.1

/-! ## C2: the approved-only invariant of public views -/

/-- URL built by the public listing page `getArticles(site, search, category)`:
the base always carries `status=approved`; `search` is appended when truthy
and `category` when truthy and not `'all'` (`enc` is `encodeURIComponent`). -/
def listingUrl (enc : String → String) (site : String)
    (search category : Option String) : String :=
  let url := "http://localhost:8000/api/articles/?site=" ++ site ++ "&status=approved"
  let url := match search with
    | some s => if s ≠ "" then url ++ "&search=" ++ enc s else url
    | none => url
  match category with
  | some c => if c ≠ "" ∧ c ≠ "all" then url ++ "&category=" ++ enc c else url
  | none => url

/-- URL fetched by the detail page `getArticle(site, slug)`: only the
`site` query parameter, no status constraint. -/
def detailFetchUrl (site : String) : String :=
  "http://localhost:8000/api/articles/?site=" ++ site

/-- `getArticle` of the detail page: normalize the response shape, then
find the article by slug client-side, with no status filtering. -/
def getArticle (slug : String) (r : Fetched (ApiResponse Article)) : Option Article :=
  match r with
  | .transportError => none
  | .success ok body =>
    if ok then
      match body with
      | .envelope results _ => results.find? (fun a => a.slug = slug)
      | .arr xs => xs.find? (fun a => a.slug = slug)
      | .other => none
    else none

/-- What the detail page shows once loading finishes. -/
inductive DetailView where
  | notFoundView
  | articleView (a : Article) (badgeClass : String) (badgeLabel : String)
deriving DecidableEq, Repr

/-- Badge class chosen inline by the detail page:
`approved ? green : rejected ? red : yellow`. -/
def statusBadgeClass (status : String) : String :=
  if status = "approved" then "bg-green-100 text-green-800"
  else if status = "rejected" then "bg-red-100 text-red-800"
  else "bg-yellow-100 text-yellow-800"

/-- Badge label: `status.charAt(0).toUpperCase() + status.slice(1)` (the
empty status stays empty, since `charAt(0)` is then the empty string). -/
def capitalizeStatus (status : String) : String :=
  match status.data with
  | [] => ""
  | c :: rest => String.mk (c.toUpper :: rest)

/-- The detail page after loading: `notFound()` when the site config or the
article is absent, otherwise the article is rendered with its status badge
whatever the status is. -/
def articlePage (siteConfig : Option Site) (article : Option Article) : DetailView :=
  match siteConfig, article with
  | some _, some a => .articleView a (statusBadgeClass a.status) (capitalizeStatus a.status)
  | _, _ => .notFoundView

/-- A concrete pending article used by counterexamples. -/
def pendingArticle : Article :=
  ⟨7, "Draft title", "draft-slug", "<p>body</p>", "ai-skills", [], "pending", "2024-01-01"⟩

/-- C2 counterexample: the detail view fetches without a status constraint,
finds a pending article by slug and displays it (with a Pending badge),
contradicting the claim that the detail view never displays an article
whose status is pending or rejected. -/
theorem c2_counterexample :
    pendingArticle.status = "pending" ∧
    getArticle "draft-slug" (.success true (.arr [pendingArticle])) = some pendingArticle ∧
    articlePage (some demoSite) (some pendingArticle) =
      .articleView pendingArticle "bg-yellow-100 text-yellow-800" "Pending" ∧
    detailFetchUrl "ai-skills" = "http://localhost:8000/api/articles/?site=ai-skills" := by
  refine ⟨rfl, ?_, ?_, rfl⟩
  · simp [getArticle, pendingArticle, List.find?]
  · simp only [articlePage, pendingArticle]
    congr 1

/-- C2 amended: the public listing fetch always carries `status=approved`
as a query constraint, but the detail fetch carries only the `site`
parameter and the detail view displays whatever article matches the slug,
rendering a status badge for pending and rejected articles as well. -/
theorem c2_public_status_constraint (enc : String → String) (site : String)
    (search category : Option String) (cfg : Site) (a : Article) (slug : String)
    (xs : List Article) (ha : a.slug = slug) :
    (∃ rest, (listingUrl enc site search category).data
        = ("http://localhost:8000/api/articles/?site=" ++ site ++ "&status=approved").data
            ++ rest) ∧
    detailFetchUrl site = "http://localhost:8000/api/articles/?site=" ++ site ∧
    getArticle slug (.success true (.arr (a :: xs))) = some a ∧
    articlePage (some cfg) (some a)
        = .articleView a (statusBadgeClass a.status) (capitalizeStatus a.status) := by
  refine ⟨?_, rfl, ?_, rfl⟩
  · simp only [listingUrl]
    rcases search with _ | s <;> rcases category with _ | c
    · exact ⟨[], by simp⟩
    · by_cases hc : c ≠ "" ∧ c ≠ "all"
      · exact ⟨("&category=" ++ enc c).data,
          by simp [hc, String.data_append, List.append_assoc]⟩
      · exact ⟨[], by simp [hc]⟩
    · by_cases hs : s ≠ ""
      · exact ⟨("&search=" ++ enc s).data,
          by simp [hs, String.data_append, List.append_assoc]⟩
      · exact ⟨[], by simp [hs]⟩
    · by_cases hs : s ≠ "" <;> by_cases hc : c ≠ "" ∧ c ≠ "all"
      · exact ⟨("&search=" ++ enc s ++ "&category=" ++ enc c).data,
          by simp [hs, hc, String.data_append, List.append_assoc]⟩
      · exact ⟨("&search=" ++ enc s).data,
          by simp [hs, hc, String.data_append, List.append_assoc]⟩
      · exact ⟨("&category=" ++ enc c).data,
          by simp [hs, hc, String.data_append, List.append_assoc]⟩
      · exact ⟨[], by simp [hs, hc]⟩
  · simp [getArticle, List.find?, ha]

/-- Witness for C2 at concrete inputs. -/
theorem c2_public_status_constraint_witness :
    ∃ rest, (listingUrl id "ai-skills" (some "foo") none).data
      = ("http://localhost:8000/api/articles/?site=" ++ "ai-skills" ++ "&status=approved").data
          ++ rest :=
  (c2_public_status_constraint id "ai-skills" (some "foo") none demoSite
    pendingArticle "draft-slug" [] rfl).1

/-! ## C8: dashboard stats (`getDashboardStats`) -/

structure DashboardStats where
  totalArticles : Nat
  pendingArticles : Nat
  approvedArticles : Nat
  rejectedArticles : Nat
  totalSites : Nat
deriving DecidableEq, Repr

/-- `getDashboardStats`: the four article-count fetches and the site-count
fetch are joined with `Promise.all` inside a single `try`/`catch`; each
resolved body contributes `body.count || 0` (so a body without a `count`
field contributes 0), while any rejected fetch rejects the whole join and
the `catch` returns all-zero stats.  Each argument is the outcome of one
fetch-and-parse; its payload is the `count` field when present. -/
def getDashboardStats (allF pendingF approvedF rejectedF sitesF : Fetched (Option Nat)) :
    DashboardStats :=
  match allF, pendingF, approvedF, rejectedF, sitesF with
  | .success _ c0, .success _ c1, .success _ c2, .success _ c3, .success _ c4 =>
      ⟨c0.getD 0, c1.getD 0, c2.getD 0, c3.getD 0, c4.getD 0⟩
  | _, _, _, _, _ => ⟨0, 0, 0, 0, 0⟩

/-- C8 counterexample: when only the pending-count fetch fails, the claim
says the remaining four fetches still report their counts, but the code
returns all-zero stats. -/
theorem c8_counterexample :
    getDashboardStats (.success true (some 10)) .transportError
      (.success true (some 7)) (.success true (some 2)) (.success true (some 3))
      = ⟨0, 0, 0, 0, 0⟩ ∧
    (⟨0, 0, 0, 0, 0⟩ : DashboardStats) ≠ ⟨10, 0, 7, 2, 3⟩ := by
  exact ⟨rfl, by decide⟩

/-- C8 amended: when every fetch resolves, each statistic is its own
`count` (0 when the field is missing); when any of the five fetches fails,
all five statistics are zero; no failure surfaces as a page-level error
(the function always returns a stats record). -/
theorem c8_dashboard_partial_failure (c0 c1 c2 c3 c4 : Option Nat) (o0 o1 o2 o3 o4 : Bool)
    (f1 f2 f3 f4 f5 : Fetched (Option Nat)) :
    getDashboardStats (.success o0 c0) (.success o1 c1) (.success o2 c2)
        (.success o3 c3) (.success o4 c4)
      = ⟨c0.getD 0, c1.getD 0, c2.getD 0, c3.getD 0, c4.getD 0⟩ ∧
    getDashboardStats .transportError f2 f3 f4 f5 = ⟨0, 0, 0, 0, 0⟩ ∧
    getDashboardStats f1 .transportError f3 f4 f5 = ⟨0, 0, 0, 0, 0⟩ ∧
    getDashboardStats f1 f2 .transportError f4 f5 = ⟨0, 0, 0, 0, 0⟩ ∧
    getDashboardStats f1 f2 f3 .transportError f5 = ⟨0, 0, 0, 0, 0⟩ ∧
    getDashboardStats f1 f2 f3 f4 .transportError = ⟨0, 0, 0, 0, 0⟩ := by
  refine ⟨rfl, ?_, ?_, ?_, ?_, ?_⟩ <;>
    cases f1 <;> cases f2 <;> cases f3 <;> cases f4 <;> cases f5 <;> rfl

/-! ## C9: `createSlug` on the AI-content page -/

/-- JS `\w`: ASCII letters, digits and underscore. -/
def wordChar (c : Char) : Bool :=
  ('a' ≤ c && c ≤ 'z') || ('A' ≤ c && c ≤ 'Z') || ('0' ≤ c && c ≤ '9') || c = '_'

/-- Characters kept by `replace(/[^\w\s-]/g, '')`. -/
def slugKeepChar (c : Char) : Bool :=
  wordChar c || jsWhitespace c || c = '-'

/-- Characters matched by `[-\s]`. -/
def sepChar (c : Char) : Bool :=
  c = '-' || jsWhitespace c

/-- `replace(/[-\s]+/g, '-')`: each maximal run of hyphens/whitespace
becomes a single hyphen (the flag records whether the previous character
belonged to such a run). -/
def collapseSepsAux : Bool → List Char → List Char
  | _, [] => []
  | prevSep, c :: rest =>
    if sepChar c then
      if prevSep then collapseSepsAux true rest
      else '-' :: collapseSepsAux true rest
    else c :: collapseSepsAux false rest

def collapseSeps (l : List Char) : List Char :=
  collapseSepsAux false l

/-- `replace(/^-+|-+$/g, '')`: drop the leading and the trailing run of
hyphens. -/
def trimHyphens (l : List Char) : List Char :=
  ((l.dropWhile (fun c => c = '-')).reverse.dropWhile (fun c => c = '-')).reverse

/-- The cleaned base computed inside `createSlug`:
`title.toLowerCase().replace(/[^\w\s-]/g, '').replace(/[-\s]+/g, '-').trim().replace(/^-+|-+$/g, '').substring(0, 150)`. -/
def slugBase (title : String) : List Char :=
  (trimHyphens (trimChars (collapseSeps
    ((title.data.map Char.toLower).filter slugKeepChar)))).take 150

/-- The 14-digit numeric timestamp suffix:
`new Date().toISOString().replace(/[^0-9]/g, '').slice(0, 14)`, applied to
the ISO string of the current date. -/
def timestampOf (iso : String) : String :=
  String.mk ((iso.data.filter Char.isDigit).take 14)

/-- `createSlug(title)`: the cleaned base, a hyphen, and the timestamp. -/
def createSlug (title timestamp : String) : String :=
  String.mk (slugBase title) ++ "-" ++ timestamp

/-- The slug as the claim describes it: lowercase, strip characters that
are not word characters, whitespace or hyphens, collapse runs of hyphens
and whitespace into single hyphens, trim boundary hyphens, append the
timestamp — with no truncation step. -/
def claimedSlug (title timestamp : String) : String :=
  String.mk (trimHyphens (collapseSeps
    ((title.data.map Char.toLower).filter slugKeepChar))) ++ "-" ++ timestamp

/-- A 160-character title whose cleaned base exceeds 150 characters. -/
def longTitle : String :=
  String.mk (List.replicate 160 'a')

/-- C9 counterexample: on a 160-character title the code truncates the
cleaned base to 150 characters, so the slug differs from the value the
claim's description (which has no truncation step) produces. -/
theorem c9_counterexample :
    createSlug longTitle "20240101000000" ≠ claimedSlug longTitle "20240101000000" := by
  decide

/-- Every character produced by the separator collapse is a non-whitespace
character (separator runs are replaced by hyphens, which JS `trim` keeps). -/
theorem collapseSepsAux_no_whitespace (b : Bool) (l : List Char) :
    ∀ c ∈ collapseSepsAux b l, jsWhitespace c = false := by
  induction l generalizing b with
  | nil => intro c hc; simp [collapseSepsAux] at hc
  | cons x rest ih =>
    intro c hc
    by_cases hx : sepChar x = true
    · cases b with
      | true =>
        simp only [collapseSepsAux, hx, if_true, if_pos] at hc
        exact ih true c hc
      | false =>
        simp only [collapseSepsAux, hx, if_true] at hc
        rcases List.mem_cons.mp hc with h | h
        · subst h; decide
        · exact ih true c h
    · have hx' : sepChar x = false := by simpa using hx
      simp only [collapseSepsAux, hx', Bool.false_eq_true, if_false] at hc
      rcases List.mem_cons.mp hc with h | h
      · subst h
        have h2 : (decide (c = '-') || jsWhitespace c) = false := hx'
        simp only [Bool.or_eq_false_iff] at h2
        exact h2.2
      · exact ih false c h

/-- Dropping a predicate that holds nowhere in the list is the identity. -/
theorem dropWhile_eq_self_of_not (p : Char → Bool) (l : List Char)
    (h : ∀ c ∈ l, p c = false) : l.dropWhile p = l := by
  cases l with
  | nil => rfl
  | cons x rest =>
    rw [List.dropWhile_cons_of_neg]
    simp [h x (List.mem_cons_self x rest)]

/-- The JS `trim()` between the collapse and the hyphen trim is a no-op:
the collapsed list contains no whitespace. -/
theorem trimChars_collapseSeps (l : List Char) :
    trimChars (collapseSeps l) = collapseSeps l := by
  unfold trimChars
  have h1 : ∀ c ∈ collapseSeps l, jsWhitespace c = false :=
    collapseSepsAux_no_whitespace false l
  rw [dropWhile_eq_self_of_not _ _ h1,
    dropWhile_eq_self_of_not _ _ (by intro c hc; exact h1 c (List.mem_reverse.mp hc)),
    List.reverse_reverse]

/-- C9 amended: `createSlug` lowercases, strips characters that are not
word characters, whitespace or hyphens, collapses separator runs into
single hyphens, trims boundary hyphens, truncates the base to its first
150 characters, and appends the numeric timestamp; for every title whose
cleaned base is at most 150 characters this agrees with the claim's
description, `createSlug("Hello, World! 2024")` is `"hello-world-2024-"`
followed by the timestamp, and two calls whose 14-digit timestamps differ
produce distinct slugs. -/
theorem c9_create_slug (title t1 t2 iso1 iso2 ts : String)
    (hlen : (trimHyphens (collapseSeps
        ((title.data.map Char.toLower).filter slugKeepChar))).length ≤ 150)
    (h1 : (timestampOf iso1).data.length = 14)
    (h2 : (timestampOf iso2).data.length = 14)
    (hne : timestampOf iso1 ≠ timestampOf iso2) :
    createSlug title ts = claimedSlug title ts ∧
    createSlug "Hello, World! 2024" ts = "hello-world-2024-" ++ ts ∧
    createSlug t1 (timestampOf iso1) ≠ createSlug t2 (timestampOf iso2) := by
  refine ⟨?_, ?_, ?_⟩
  · unfold createSlug claimedSlug slugBase
    rw [trimChars_collapseSeps, List.take_of_length_le hlen]
  · unfold createSlug
    rw [show String.mk (slugBase "Hello, World! 2024") ++ "-" = "hello-world-2024-" from by decide]
  · intro heq
    have hdata := congrArg String.data heq
    simp only [createSlug, String.data_append] at hdata
    have hts : (timestampOf iso1).data = (timestampOf iso2).data :=
      (List.append_inj' hdata (by rw [h1, h2])).2
    exact hne (String.ext hts)

/-- Witness for C9 at concrete titles and timestamps one second apart. -/
theorem c9_create_slug_witness :
    createSlug "Hello, World! 2024" (timestampOf "2024-01-01T00:00:00.000Z")
      ≠ createSlug "Hello, World! 2024" (timestampOf "2024-01-01T00:00:01.000Z") :=
  (c9_create_slug "Hello, World! 2024" "Hello, World! 2024" "Hello, World! 2024"
    "2024-01-01T00:00:00.000Z" "2024-01-01T00:00:01.000Z" ""
    (by decide) (by decide) (by decide) (by decide)).2.2

/-! ## C7: preview rendering vs. stored HTML (ai-content page) -/

inductive ListStyle where
  | ordered
  | unordered
deriving DecidableEq, Repr

/-- A list item of an `ArticleSection` (`{type: 'list_item', content, url?}`). -/
structure SectionListItem where
  content : String
  url : Option String
deriving DecidableEq, Repr

/-- `ArticleSection` from the ai-content page: heading, paragraph, list or
metadata, with the optional fields of the TypeScript interface. -/
inductive ArticleSection where
  | heading (level : Option Nat) (content : String) (url : Option String)
  | paragraph (content : String)
  | list (style : Option ListStyle) (items : Option (List SectionListItem))
  | metadata (category : Option String) (source : Option String) (url : Option String)
deriving DecidableEq, Repr

/-- JS truthiness of an optional string field (missing and empty are falsy). -/
def truthy : Option String → Bool
  | some s => s ≠ ""
  | none => false

/-- The value of an optional string field where the code reads it. -/
def strOf : Option String → String
  | some s => s
  | none => ""

/-- `section.level || 2`: both a missing level and level 0 give 2. -/
def levelOrDefault : Option Nat → Nat
  | none => 2
  | some l => if l = 0 then 2 else l

/-- A DOM/HTML tree: text or an element with attributes and children. -/
inductive Html where
  | text (s : String)
  | el (tag : String) (attrs : List (String × String)) (children : List Html)

/-- Attributes of every link both renderers emit, in source order. -/
def linkAttrs (url : String) : List (String × String) :=
  [("href", url), ("target", "_blank"), ("rel", "noopener noreferrer"),
   ("class", "text-blue-600 hover:text-blue-800 underline")]

/-- Heading tag chosen by the preview `switch (level)`: cases 1–6, with
`default` falling back to `h2`. -/
def headingTagOf (level : Nat) : String :=
  if level = 1 then "h1" else if level = 2 then "h2" else if level = 3 then "h3"
  else if level = 4 then "h4" else if level = 5 then "h5" else if level = 6 then "h6"
  else "h2"

/-- Heading class of the preview `switch (level)` (default = the `h2` class). -/
def previewHeadingClass (level : Nat) : String :=
  if level = 1 then "text-2xl font-bold mb-4"
  else if level = 2 then "text-xl font-bold mb-4"
  else if level = 3 then "text-lg font-bold mb-4"
  else if level = 4 then "text-base font-bold mb-4"
  else if level = 5 then "text-sm font-bold mb-4"
  else if level = 6 then "text-xs font-bold mb-4"
  else "text-xl font-bold mb-4"

/-- One list item as both renderers build it (the `<li className="mb-2">`
with an optional anchor is written identically in `renderSection` and in
`convertSectionsToHtml`). -/
def liNode (item : SectionListItem) : Html :=
  Html.el "li" [("class", "mb-2")]
    [if truthy item.url then Html.el "a" (linkAttrs (strOf item.url)) [Html.text item.content]
     else Html.text item.content]

/-- The metadata block as both renderers build it (`<div>` with an optional
category badge span and an optional `Source:` span, written identically in
`renderSection` and in `convertSectionsToHtml`). -/
def metaNode (category source url : Option String) : Html :=
  Html.el "div" [("class", "mb-4 p-3 bg-gray-50 rounded-lg")]
    ((if truthy category then
        [Html.el "span"
          [("class", "inline-block bg-blue-100 text-blue-800 text-xs px-2 py-1 rounded mr-2")]
          [Html.text (strOf category)]]
      else []) ++
     (if truthy source then
        [Html.el "span" [("class", "text-sm text-gray-600")]
          [Html.text "Source: ",
           if truthy url then Html.el "a" (linkAttrs (strOf url)) [Html.text (strOf source)]
           else Html.text (strOf source)]]
      else []))

/-- `renderSection` of the ai-content page (the client-side preview DOM;
React `key` props are bookkeeping and not part of the DOM). -/
def renderSection : ArticleSection → Html
  | .heading lvl content url =>
    let level := levelOrDefault lvl
    let inner := if truthy url then Html.el "a" (linkAttrs (strOf url)) [Html.text content]
                 else Html.text content
    Html.el (headingTagOf level) [("class", previewHeadingClass level)] [inner]
  | .paragraph content =>
    Html.el "p" [("class", "mb-4 text-gray-700 leading-relaxed")] [Html.text content]
  | .list style items =>
    Html.el (if style = some .ordered then "ol" else "ul")
      [("class", if style = some .ordered then "mb-4 list-decimal ml-6" else "mb-4 list-disc ml-6")]
      ((items.getD []).map liNode)
  | .metadata category source url =>
    metaNode category source url

/-- Concatenation of a list of strings (JS `join('')`). -/
def concatStrings : List String → String
  | [] => ""
  | s :: rest => s ++ concatStrings rest

/-- Heading class of `convertSectionsToHtml` (nested ternaries, default =
the `text-lg font-bold mb-2` class for levels above 3). -/
def storedHeadingClass (level : Nat) : String :=
  if level = 1 then "text-3xl font-bold mb-6"
  else if level = 2 then "text-2xl font-bold mb-4"
  else if level = 3 then "text-xl font-bold mb-3"
  else "text-lg font-bold mb-2"

/-- One list item of the persisted HTML (the template inside
`section.items?.map(...)` of `convertSectionsToHtml`). -/
def liString (item : SectionListItem) : String :=
  if truthy item.url then
    "<li class=\"mb-2\"><a href=\"" ++ strOf item.url
      ++ "\" target=\"_blank\" rel=\"noopener noreferrer\" class=\"text-blue-600 hover:text-blue-800 underline\">"
      ++ item.content ++ "</a></li>"
  else "<li class=\"mb-2\">" ++ item.content ++ "</li>"

/-- The metadata block of the persisted HTML (`metaHtml` accumulation of
`convertSectionsToHtml`). -/
def metaString (category source url : Option String) : String :=
  let m0 := "<div class=\"mb-4 p-3 bg-gray-50 rounded-lg\">"
  let m1 :=
    if truthy category then
      m0 ++ "<span class=\"inline-block bg-blue-100 text-blue-800 text-xs px-2 py-1 rounded mr-2\">"
        ++ strOf category ++ "</span>"
    else m0
  let m2 :=
    if truthy source then
      if truthy url then
        m1 ++ "<span class=\"text-sm text-gray-600\">Source: <a href=\"" ++ strOf url
          ++ "\" target=\"_blank\" rel=\"noopener noreferrer\" class=\"text-blue-600 hover:text-blue-800 underline\">"
          ++ strOf source ++ "</a></span>"
      else
        m1 ++ "<span class=\"text-sm text-gray-600\">Source: " ++ strOf source ++ "</span>"
    else m1
  m2 ++ "</div>"

/-- One section of `convertSectionsToHtml` (the persisted HTML string),
translated template by template from the `switch (section.type)`. -/
def convertSectionToHtml : ArticleSection → String
  | .heading lvl content url =>
    let level := levelOrDefault lvl
    let headingClasses := storedHeadingClass level
    if truthy url then
      "<h" ++ toString level ++ " class=\"" ++ headingClasses ++ "\"><a href=\"" ++ strOf url
        ++ "\" target=\"_blank\" rel=\"noopener noreferrer\" class=\"text-blue-600 hover:text-blue-800 underline\">"
        ++ content ++ "</a></h" ++ toString level ++ ">"
    else
      "<h" ++ toString level ++ " class=\"" ++ headingClasses ++ "\">" ++ content
        ++ "</h" ++ toString level ++ ">"
  | .paragraph content =>
    "<p class=\"mb-4 text-gray-700 leading-relaxed\">" ++ content ++ "</p>"
  | .list style items =>
    "<" ++ (if style = some .ordered then "ol" else "ul") ++ " class=\""
      ++ (if style = some .ordered then "list-decimal ml-6 mb-4" else "list-disc ml-6 mb-4")
      ++ "\">"
      ++ concatStrings ((items.getD []).map liString)
      ++ "</" ++ (if style = some .ordered then "ol" else "ul") ++ ">"
  | .metadata category source url =>
    metaString category source url

/-- JS `join('\n')`. -/
def joinWithNewlines : List String → String
  | [] => ""
  | [s] => s
  | s :: rest => s ++ "\n" ++ joinWithNewlines rest

/-- `convertSectionsToHtml`: one HTML part per section, joined with `\n`. -/
def convertSectionsToHtml (sections : List ArticleSection) : String :=
  joinWithNewlines (sections.map convertSectionToHtml)

/-- The stored HTML of one section as a tree: the same branching as
`convertSectionToHtml`, with each template written as an element (the
lemma `storedNode_render` below proves its serialization is exactly the
template string). -/
def storedNode : ArticleSection → Html
  | .heading lvl content url =>
    let level := levelOrDefault lvl
    let inner := if truthy url then Html.el "a" (linkAttrs (strOf url)) [Html.text content]
                 else Html.text content
    Html.el ("h" ++ toString level) [("class", storedHeadingClass level)] [inner]
  | .paragraph content =>
    Html.el "p" [("class", "mb-4 text-gray-700 leading-relaxed")] [Html.text content]
  | .list style items =>
    Html.el (if style = some .ordered then "ol" else "ul")
      [("class", if style = some .ordered then "list-decimal ml-6 mb-4" else "list-disc ml-6 mb-4")]
      ((items.getD []).map liNode)
  | .metadata category source url =>
    metaNode category source url

/-- Fuel-bounded HTML serializer (the trees above have depth at most 4). -/
def renderF : Nat → Html → String
  | _, .text s => s
  | 0, .el _ _ _ => ""
  | Nat.succ n, .el tag attrs children =>
    "<" ++ tag
      ++ concatStrings (attrs.map (fun a => " " ++ a.1 ++ "=\"" ++ a.2 ++ "\"")) ++ ">"
      ++ concatStrings (children.map (renderF n)) ++ "</" ++ tag ++ ">"

/-- Serialization of one of the renderers' trees. -/
def Html.render (h : Html) : String :=
  renderF 4 h

theorem renderF4_el (tag : String) (attrs : List (String × String)) (children : List Html) :
    renderF 4 (Html.el tag attrs children)
      = "<" ++ tag
          ++ concatStrings (attrs.map (fun a => " " ++ a.1 ++ "=\"" ++ a.2 ++ "\"")) ++ ">"
          ++ concatStrings (children.map (renderF 3)) ++ "</" ++ tag ++ ">" := rfl

theorem renderF3_el (tag : String) (attrs : List (String × String)) (children : List Html) :
    renderF 3 (Html.el tag attrs children)
      = "<" ++ tag
          ++ concatStrings (attrs.map (fun a => " " ++ a.1 ++ "=\"" ++ a.2 ++ "\"")) ++ ">"
          ++ concatStrings (children.map (renderF 2)) ++ "</" ++ tag ++ ">" := rfl

theorem renderF2_el (tag : String) (attrs : List (String × String)) (children : List Html) :
    renderF 2 (Html.el tag attrs children)
      = "<" ++ tag
          ++ concatStrings (attrs.map (fun a => " " ++ a.1 ++ "=\"" ++ a.2 ++ "\"")) ++ ">"
          ++ concatStrings (children.map (renderF 1)) ++ "</" ++ tag ++ ">" := rfl

theorem renderF_text (n : Nat) (s : String) : renderF n (Html.text s) = s := by
  cases n <;> rfl

/-- A list item's tree serializes to exactly its template string. -/
theorem liNode_render (item : SectionListItem) :
    renderF 3 (liNode item) = liString item := by
  cases hu : truthy item.url <;>
    (apply String.ext
     simp [liNode, liString, linkAttrs, renderF3_el, renderF2_el, renderF_text,
       concatStrings, hu, String.data_append, List.append_assoc])

set_option maxRecDepth 4000 in
/-- The metadata tree serializes to exactly its template string. -/
theorem metaNode_render (category source url : Option String) :
    (metaNode category source url).render = metaString category source url := by
  cases hc : truthy category <;> cases hs : truthy source <;> cases hu : truthy url <;>
    (apply String.ext
     simp [Html.render, metaNode, metaString, linkAttrs, renderF4_el, renderF3_el,
       renderF2_el, renderF_text, concatStrings, hc, hs, hu,
       String.data_append, List.append_assoc])

/-- The stored tree serializes to exactly the verbatim template string of
`convertSectionToHtml`, for every section. -/
theorem storedNode_render (s : ArticleSection) :
    (storedNode s).render = convertSectionToHtml s := by
  cases s with
  | heading lvl content url =>
    cases hu : truthy url <;>
      (apply String.ext
       simp [storedNode, convertSectionToHtml, Html.render, linkAttrs,
         renderF4_el, renderF3_el, renderF2_el, renderF_text, concatStrings, hu,
         String.data_append, List.append_assoc])
  | paragraph content =>
    apply String.ext
    simp [storedNode, convertSectionToHtml, Html.render, renderF4_el, renderF_text,
      concatStrings, String.data_append, List.append_assoc]
  | list style items =>
    have h2 : (items.getD []).map (renderF 3 ∘ liNode) = (items.getD []).map liString :=
      List.map_congr_left (fun item _ => liNode_render item)
    apply String.ext
    simp [storedNode, convertSectionToHtml, Html.render, renderF4_el, concatStrings,
      h2, String.data_append, List.append_assoc]
  | metadata category source url =>
    exact metaNode_render category source url

/-- Semantic content of a rendered section, as far as the spec's notion of
equivalence goes: section type, heading level, text content, list style
and items, and link targets; attributes like classes are ignored. -/
inductive SemNode where
  | headingNode (level : Nat) (content : String) (link : Option String)
  | paragraphNode (content : String)
  | listNode (ordered : Bool) (items : List (String × Option String))
  | metadataNode (category : Option String) (source : Option String) (link : Option String)
  | otherNode
deriving DecidableEq, Repr

/-- First attribute value for a key. -/
def attrOf (attrs : List (String × String)) (key : String) : Option String :=
  (attrs.find? (fun a => a.1 = key)).map Prod.snd

/-- Text content and link target of an inline node (plain text or anchor). -/
def semInline : Html → String × Option String
  | .text s => (s, none)
  | .el tag attrs children =>
    if tag = "a" then
      (match children with
       | [Html.text s] => s
       | _ => "", attrOf attrs "href")
    else ("", none)

/-- Numeric value of a nonempty digit string. -/
def natOfDigits (l : List Char) : Option Nat :=
  match l with
  | [] => none
  | _ =>
    if l.all Char.isDigit then some (l.foldl (fun acc c => acc * 10 + (c.toNat - 48)) 0)
    else none

/-- The heading level encoded in a tag name (`"h3"` gives 3). -/
def headingLevelOfTag (tag : String) : Option Nat :=
  match tag.data with
  | 'h' :: rest => natOfDigits rest
  | _ => none

/-- Semantic view of a section-level node. -/
def sem : Html → SemNode
  | .text _ => .otherNode
  | .el tag _ children =>
    if tag = "p" then
      .paragraphNode (match children with | [Html.text s] => s | _ => "")
    else if tag = "ol" ∨ tag = "ul" then
      .listNode (tag = "ol")
        (children.map (fun li =>
          match li with
          | Html.el "li" _ [inner] => semInline inner
          | _ => ("", none)))
    else if tag = "div" then
      .metadataNode
        (children.findSome? (fun c =>
          match c with
          | Html.el "span" _ [Html.text s] => some s
          | _ => none))
        ((children.findSome? (fun c =>
          match c with
          | Html.el "span" _ [Html.text "Source: ", inner] => some (semInline inner)
          | _ => none)).map Prod.fst)
        ((children.findSome? (fun c =>
          match c with
          | Html.el "span" _ [Html.text "Source: ", inner] => some (semInline inner)
          | _ => none)).bind Prod.snd)
    else
      match headingLevelOfTag tag with
      | some lvl =>
        .headingNode lvl (semInline (children.headD (Html.text ""))).1
          (semInline (children.headD (Html.text ""))).2
      | none => .otherNode

/-- The heading levels the preview `switch` handles without clamping:
1 through 6 (a missing level and level 0 default to 2 in both renderers). -/
def validHeadingLevel : ArticleSection → Prop
  | .heading lvl _ _ => levelOrDefault lvl ≤ 6
  | _ => True

theorem levelOrDefault_pos (l : Option Nat) : 1 ≤ levelOrDefault l := by
  cases l with
  | none => decide
  | some n =>
    simp only [levelOrDefault]
    split <;> omega

/-- For a section whose heading level (if any) is within 1–6, the stored
tree and the preview tree have the same semantics. -/
theorem sem_storedNode_eq_renderSection (s : ArticleSection) (h : validHeadingLevel s) :
    sem (storedNode s) = sem (renderSection s) := by
  cases s with
  | heading lvl content url =>
    have hub : levelOrDefault lvl ≤ 6 := h
    have hlb : 1 ≤ levelOrDefault lvl := levelOrDefault_pos lvl
    have hcases : levelOrDefault lvl = 1 ∨ levelOrDefault lvl = 2 ∨ levelOrDefault lvl = 3 ∨
        levelOrDefault lvl = 4 ∨ levelOrDefault lvl = 5 ∨ levelOrDefault lvl = 6 := by omega
    rcases hcases with hv | hv | hv | hv | hv | hv <;>
      cases hu : truthy url <;>
        simp only [storedNode, renderSection, hv, hu, Bool.false_eq_true, if_true, if_false] <;>
          rfl
  | paragraph content => rfl
  | list style items => rfl
  | metadata category source url => rfl

/-- A heading section with level 7 (allowed by the `level?: number` field). -/
def level7Section : ArticleSection :=
  .heading (some 7) "Overview" none

/-- C7 counterexample: at heading level 7 the stored HTML keeps an `<h7>`
element while the preview clamps to `<h2>`, so the two renderings disagree
on the heading level. -/
theorem c7_counterexample :
    sem (storedNode level7Section) = .headingNode 7 "Overview" none ∧
    sem (renderSection level7Section) = .headingNode 2 "Overview" none ∧
    (SemNode.headingNode 7 "Overview" none) ≠ .headingNode 2 "Overview" none ∧
    convertSectionsToHtml [level7Section]
      = "<h7 class=\"text-lg font-bold mb-2\">Overview</h7>" := by
  refine ⟨by decide, by decide, by decide, by decide⟩

/-- C7 amended: for every structured article all of whose heading levels
are within 1–6 (or unspecified, defaulting to 2), the preview DOM and the
persisted HTML string are semantically equivalent section by section —
same order and types, same heading levels, same list style and items, same
link targets; the second conjunct grounds the stored trees in the verbatim
string builder. -/
theorem c7_preview_stored_equivalence (sections : List ArticleSection)
    (h : ∀ s ∈ sections, validHeadingLevel s) :
    sections.map (fun s => sem (storedNode s))
      = sections.map (fun s => sem (renderSection s)) ∧
    convertSectionsToHtml sections
      = joinWithNewlines (sections.map (fun s => (storedNode s).render)) := by
  constructor
  · exact List.map_congr_left (fun s hs => sem_storedNode_eq_renderSection s (h s hs))
  · unfold convertSectionsToHtml
    congr 1
    exact (List.map_congr_left (fun s _ => (storedNode_render s).symm))

/-- Witness for C7 on a concrete two-section article. -/
theorem c7_preview_stored_equivalence_witness :
    [ArticleSection.heading (some 3) "Intro" none, ArticleSection.paragraph "Body"].map
        (fun s => sem (storedNode s))
      = [ArticleSection.heading (some 3) "Intro" none, ArticleSection.paragraph "Body"].map
        (fun s => sem (renderSection s)) :=
  (c7_preview_stored_equivalence
    [ArticleSection.heading (some 3) "Intro" none, ArticleSection.paragraph "Body"]
    (by intro s hs; simp at hs; rcases hs with h | h <;> (subst h; simp [validHeadingLevel, levelOrDefault]))).1

end CAP
